import Mathlib

/-!
Shallow embedding of the JomMCP deployment-orchestration core:
the Kubernetes adapter (`kubernetes_manager.py`), the deployment
lifecycle orchestrator (`deployment_manager.py`), the deployment API
routes (`api/v1/deployments.py`) and the generation orchestrator
(`generator.py`), together with the `Deployment` and `MCPServer`
records they mutate.

Modelling conventions:
- The database is the committed snapshot (`Option Deployment` /
  `Option MCPServer`); `none` means the record is absent.  An ORM
  object mutated in memory diverges from the committed snapshot until
  `db.commit()` runs.  Commits may raise: the oracle
  `cs : List (Option String)` is consumed one entry per commit attempt,
  `none` = success, `some msg` = the commit raises an exception whose
  `str(e)` is `msg`; a missing entry means success.  A failed commit
  leaves the committed snapshot unchanged (rollback).
- The Kubernetes adapter never raises towards its callers: every
  method of `KubernetesManager` wraps its body in try/except and
  returns a `bool` / `Optional` value.  Cluster-side outcomes are an
  oracle (`K8sBehavior`).
- Wall-clock time in the readiness poll loop advances 10 seconds per
  `asyncio.sleep(10)`; poll iteration `i` starts at elapsed `10 * i`.
- Adapter invocations and database writes are recorded in an `Event`
  trace in program order.
- Columns no claim touches (ids other than their rendered string,
  owner, `deployment_config`, `container_id`, timestamps) are omitted.
-/

/-- `core/models/deployment.py`: `DeploymentStatus` enum. -/
inductive DeploymentStatus where
  | pending
  | deploying
  | running
  | scaling
  | updating
  | stopping
  | stopped
  | failed
  | error
  deriving DecidableEq, Repr

/-- `core/models/mcp_server.py`: `MCPServerStatus` enum. -/
inductive MCPServerStatus where
  | pending
  | generating
  | building
  | ready
  | deploying
  | running
  | stopped
  | error
  | failed
  deriving DecidableEq, Repr

/-- The `.value` string of an `MCPServerStatus` member (the Python enum is a
`str` mixin, so an f-string renders the value). -/
def MCPServerStatus.value : MCPServerStatus → String
  | .pending => "pending"
  | .generating => "generating"
  | .building => "building"
  | .ready => "ready"
  | .deploying => "deploying"
  | .running => "running"
  | .stopped => "stopped"
  | .error => "error"
  | .failed => "failed"

/-- `core/models/deployment.py`: the `Deployment` record.  `nspace` embeds the
`namespace` column (the word is a Lean keyword). -/
structure Deployment where
  idStr : String
  name : String
  status : DeploymentStatus
  container_name : Option String
  nspace : String
  deployment_name : Option String
  service_name : Option String
  cpu_limit : String
  memory_limit : String
  replicas : Nat
  port : Nat
  external_url : Option String
  environment_variables : List (String × String)
  error_message : Option String
  health_check_path : String
  deriving DecidableEq, Repr

/-- `core/models/mcp_server.py`: the `MCPServer` record.  `idHex` is the hex
form of the UUID (`id.hex`), `idStr` its `str()` form. -/
structure MCPServer where
  idStr : String
  idHex : String
  name : String
  status : MCPServerStatus
  generated_code_path : Option String
  docker_image_name : Option String
  docker_image_tag : Option String
  generation_logs : Option String
  build_logs : Option String
  error_message : Option String
  deriving DecidableEq, Repr

/-- Python renders `None` inside an f-string as the text "None". -/
def pyStr : Option String → String
  | none => "None"
  | some s => s

/-- Python `x or dflt` on an optional string: `None` and `""` are falsy. -/
def pyOrS : Option String → String → String
  | none, dflt => dflt
  | some s, dflt => if s = "" then dflt else s

/-- Python `x or dflt` on an optional number: `None` and `0` are falsy. -/
def pyOrN : Option Nat → Nat → Nat
  | none, dflt => dflt
  | some n, dflt => if n = 0 then dflt else n

/-- Python `not x` on an optional string: true for `None` and `""`. -/
def pyFalsy : Option String → Bool
  | none => true
  | some s => s = ""

/-- One entry of the `conditions` list returned by
`KubernetesManager.get_deployment_status`: the dict
`{"type": c.type, "status": c.status, "reason": c.reason, "message": c.message}`.
`type` and `status` are required strings on a Kubernetes condition; `reason`
and `message` may be `None`. -/
structure DeploymentCondition where
  ctype : String
  cstatus : String
  reason : Option String
  message : Option String
  deriving DecidableEq, Repr

/-- The dict returned by `KubernetesManager.get_deployment_status` on
success: replica counters and the condition list. -/
structure WorkloadStatus where
  replicas : Nat
  ready_replicas : Nat
  available_replicas : Nat
  updated_replicas : Nat
  conditions : List DeploymentCondition
  deriving DecidableEq, Repr

/-- The deployment object read back from the cluster
(`read_namespaced_deployment`): `spec.replicas` plus the `status` counters,
each of which may be `None` (the adapter maps those to `0` / `[]`). -/
structure RawWorkload where
  spec_replicas : Nat
  status_ready_replicas : Option Nat
  status_available_replicas : Option Nat
  status_updated_replicas : Option Nat
  status_conditions : Option (List DeploymentCondition)
  deriving DecidableEq, Repr

/-- A liveness/readiness probe of the workload manifest
(`kubernetes_manager.py`, `create_deployment`). -/
structure Probe where
  path : String
  port : Nat
  initial_delay_seconds : Nat
  period_seconds : Nat
  deriving DecidableEq, Repr

/-- The workload manifest built by `KubernetesManager.create_deployment`:
the fields of the `V1Deployment` body the claims are about. -/
structure WorkloadManifest where
  name : String
  nspace : String
  image : String
  port : Nat
  replicas : Nat
  cpu_limit : String
  memory_limit : String
  cpu_request : String
  memory_request : String
  env : List (String × String)
  labels : List (String × String)
  liveness_probe : Probe
  readiness_probe : Probe
  deriving DecidableEq, Repr

/-- Outcome of one Kubernetes API call as the adapter distinguishes it:
success, a 404 `ApiException` (caught and treated as benign in delete
paths), or any other raised error. -/
inductive ApiResult where
  | ok
  | notFound
  | err (msg : String)
  deriving DecidableEq, Repr

/-- `ok` and `notFound` both let `KubernetesManager.delete_deployment`
proceed (the 404 branch is `pass`). -/
def ApiResult.isBenign : ApiResult → Bool
  | .ok => true
  | .notFound => true
  | .err _ => false

/-- Observable actions of one orchestrator run, in program order:
database writes and adapter invocations. -/
inductive Event where
  | commit (d : Deployment)
  | dbDelete
  | ensureNamespace (ns : String)
  | createWorkload (m : WorkloadManifest)
  | createService (name : String) (ns : String) (port : Nat)
  | getStatus (i : Nat)
  | patchReplicas (name : String) (ns : String) (replicas : Nat)
  | deleteWorkload (name : String) (ns : String)
  | deleteService (name : String) (ns : String)
  deriving DecidableEq, Repr

/-- Cluster-side behaviour oracle for one orchestrator run: availability of
the adapter (`is_available`), whether each create/patch call succeeds,
the status read at poll iteration `i` (already composed through
`get_deployment_status`, so `none` covers both unavailability and a read
that raised), and the two delete outcomes. -/
structure K8sBehavior where
  available : Bool
  createWorkloadOk : Bool
  createServiceOk : Bool
  statusAt : Nat → Option WorkloadStatus
  scaleOk : Bool
  deleteWorkloadRes : ApiResult
  deleteServiceRes : ApiResult

namespace KubernetesManager

/-- The manifest `create_deployment` builds: both probes point at the fixed
path "/health" on the container port; liveness starts after 30s every 10s,
readiness after 5s every 5s; requests are fixed at 100m/128Mi. -/
def buildWorkloadManifest (name ns image : String) (port replicas : Nat)
    (cpu mem : String) (env labels : List (String × String)) : WorkloadManifest :=
  { name := name
  , nspace := ns
  , image := image
  , port := port
  , replicas := replicas
  , cpu_limit := cpu
  , memory_limit := mem
  , cpu_request := "100m"
  , memory_request := "128Mi"
  , env := env
  , labels := [("app", name), ("managed-by", "mcp-hub")] ++ labels
  , liveness_probe := { path := "/health", port := port, initial_delay_seconds := 30, period_seconds := 10 }
  , readiness_probe := { path := "/health", port := port, initial_delay_seconds := 5, period_seconds := 5 } }

/-- `KubernetesManager.create_deployment`: returns `False` without touching
the cluster when the adapter is unavailable; otherwise ensures the
namespace, issues the workload creation, and reports the cluster outcome
(any raised error is caught and becomes `False`). -/
def create_deployment (b : K8sBehavior) (name ns image : String)
    (port replicas : Nat) (cpu mem : String)
    (env labels : List (String × String)) : Bool × List Event :=
  if b.available then
    (b.createWorkloadOk,
      [Event.ensureNamespace ns,
       Event.createWorkload (buildWorkloadManifest name ns image port replicas cpu mem env labels)])
  else (false, [])

/-- `KubernetesManager.create_service`: the service is named
`f"{name}-service"` and exposes the given port. -/
def create_service (b : K8sBehavior) (name ns : String) (port : Nat) : Bool × List Event :=
  if b.available then
    (b.createServiceOk, [Event.createService (name ++ "-service") ns port])
  else (false, [])

/-- `KubernetesManager.get_deployment_status`: `None` when the adapter is
unavailable or the read raises; otherwise the translated status dict, with
`None` counters defaulted to `0` and a `None` condition list to `[]`. -/
def get_deployment_status (available : Bool) (readResult : Except String RawWorkload) :
    Option WorkloadStatus :=
  if available then
    match readResult with
    | .error _ => none
    | .ok w =>
        some { replicas := w.spec_replicas
             , ready_replicas := w.status_ready_replicas.getD 0
             , available_replicas := w.status_available_replicas.getD 0
             , updated_replicas := w.status_updated_replicas.getD 0
             , conditions := w.status_conditions.getD [] }
  else none

/-- `KubernetesManager.scale_deployment`: patches the replica count; `False`
when unavailable or the patch raises.  The orchestrator passes the record's
(optional) `deployment_name`, rendered the way Python would. -/
def scale_deployment (b : K8sBehavior) (name : Option String) (ns : String)
    (replicas : Nat) : Bool × List Event :=
  if b.available then
    (b.scaleOk, [Event.patchReplicas (pyStr name) ns replicas])
  else (false, [])

/-- `KubernetesManager.delete_deployment`: deletes the workload first and
then the service, treating a 404 on either as success (`pass`); any other
raised error aborts (so the service call is skipped when the workload call
raises) and yields `False`. -/
def delete_deployment (b : K8sBehavior) (name : Option String) (ns : String) :
    Bool × List Event :=
  if b.available then
    let e1 := Event.deleteWorkload (pyStr name) ns
    if b.deleteWorkloadRes.isBenign then
      let e2 := Event.deleteService (pyStr name ++ "-service") ns
      if b.deleteServiceRes.isBenign then (true, [e1, e2]) else (false, [e1, e2])
    else (false, [e1])
  else (false, [])

end KubernetesManager

/-- Exit reason of `_wait_for_deployment_ready`'s poll loop. -/
inductive WaitExit where
  | ready
  | progressing_failed (message : Option String)
  | timed_out
  deriving DecidableEq, Repr

namespace DeploymentManager

/-- The poll loop of `_wait_for_deployment_ready`.  At iteration `i`
(elapsed wall clock `10 * i` seconds) it first checks the timeout
(`elapsed > timeout_seconds`), then reads the workload status (recorded
as a `getStatus i` event); on a readable status it succeeds when
`ready_replicas == total_replicas > 0`, otherwise fails on the first
condition with type "Progressing" and status "False" (propagating that
condition's `message`, which the adapter always populates — possibly with
`None`); otherwise it sleeps 10 seconds and repeats.  Returns the exit,
the iteration index at exit and the accumulated events.  `fuel` bounds
the recursion; the wrapper passes enough fuel that it never runs out. -/
def wait_loop (statusAt : Nat → Option WorkloadStatus) (timeout : Nat) :
    Nat → Nat → List Event → WaitExit × Nat × List Event
  | 0, i, acc => (.timed_out, i, acc)
  | fuel + 1, i, acc =>
    if timeout < 10 * i then (.timed_out, i, acc)
    else
      let acc' := acc ++ [Event.getStatus i]
      match statusAt i with
      | some st =>
        if st.ready_replicas = st.replicas ∧ 0 < st.ready_replicas then (.ready, i, acc')
        else
          match st.conditions.find? (fun c => c.ctype == "Progressing" && c.cstatus == "False") with
          | some c => (.progressing_failed c.message, i, acc')
          | none => wait_loop statusAt timeout fuel (i + 1) acc'
      | none => wait_loop statusAt timeout fuel (i + 1) acc'

/-- `_wait_for_deployment_ready` with its default `timeout_seconds = 300`:
the timeout check first fires at iteration 31 (elapsed 310 > 300), so 32
units of fuel are always enough. -/
def runWait (statusAt : Nat → Option WorkloadStatus) : WaitExit × Nat × List Event :=
  wait_loop statusAt 300 32 0 []

/-- The in-cluster DNS URL written on readiness:
`f"http://{service_name}.{namespace}.svc.cluster.local:{port}"`. -/
def clusterUrl (d : Deployment) : String :=
  "http://" ++ pyStr d.service_name ++ "." ++ d.nspace ++ ".svc.cluster.local:" ++ toString d.port

/-- The record mutation `_wait_for_deployment_ready` performs at loop exit
(immediately before its single commit). -/
def applyExit (d : Deployment) : WaitExit → Deployment
  | .ready => { d with status := .running, external_url := some (clusterUrl d) }
  | .progressing_failed m => { d with status := .failed, error_message := m }
  | .timed_out => { d with status := .failed, error_message := some "Deployment timeout" }

/-- The except-handler of `deploy_mcp_server`: re-fetches the committed
record, sets FAILED with `str(e)` and commits; if that commit also raises
the error is only logged and the committed state is left as it was. -/
def handleDeployError (cs : List (Option String)) (committed : Option Deployment)
    (msg : String) (evs : List Event) : Option Deployment × List Event :=
  match committed with
  | none => (none, evs)
  | some d =>
    let d' := { d with status := .failed, error_message := some msg }
    match cs.headD none with
    | none => (some d', evs ++ [Event.commit d'])
    | some _ => (committed, evs)

/-- A `db.commit()` attempt of `deploy_mcp_server` at a point where an
exception would be caught by the function's outer except-handler: on
success the record `d` becomes the committed snapshot; on failure control
transfers to `handleDeployError` with the raised message. -/
def commitOr (cs : List (Option String)) (committed : Option Deployment)
    (d : Deployment) (evs : List Event) : Option Deployment × List Event :=
  match cs.headD none with
  | none => (some d, evs ++ [Event.commit d])
  | some m => handleDeployError (cs.drop 1) committed m evs

/-- The labels `deploy_mcp_server` passes to the workload creation. -/
def deployLabels (mcp : MCPServer) (d : Deployment) : List (String × String) :=
  [("mcp-server-id", mcp.idStr), ("deployment-id", d.idStr),
   ("version", pyOrS mcp.docker_image_tag "latest")]

/-- `DeploymentManager.deploy_mcp_server`: fetch the record (no-op when
absent); commit DEPLOYING; derive and assign the names in memory (no
commit); create the workload (FAILED + fixed message on `False`); create
the service (likewise); then run the readiness loop and commit its exit
mutation.  Any raised exception (in this model: a failing commit) is
caught by `handleDeployError`. -/
def deploy_mcp_server (b : K8sBehavior) (cs : List (Option String))
    (store0 : Option Deployment) (mcp : MCPServer) : Option Deployment × List Event :=
  match store0 with
  | none => (none, [])
  | some d0 =>
    let d1 := { d0 with status := DeploymentStatus.deploying }
    match cs.headD none with
    | some m => handleDeployError (cs.drop 1) store0 m []
    | none =>
      let cs1 := cs.drop 1
      let committed := some d1
      let dn := "mcp-" ++ d1.name
      let d2 := { d1 with deployment_name := some dn
                        , service_name := some (dn ++ "-service")
                        , container_name := some dn }
      let image := pyStr mcp.docker_image_name ++ ":" ++ pyStr mcp.docker_image_tag
      let rW := KubernetesManager.create_deployment b dn d2.nspace image d2.port
        d2.replicas d2.cpu_limit d2.memory_limit d2.environment_variables (deployLabels mcp d2)
      let evs0 := Event.commit d1 :: rW.2
      if rW.1 = false then
        commitOr cs1 committed
          { d2 with status := .failed, error_message := some "Failed to create Kubernetes deployment" }
          evs0
      else
        let rS := KubernetesManager.create_service b dn d2.nspace d2.port
        let evs1 := evs0 ++ rS.2
        if rS.1 = false then
          commitOr cs1 committed
            { d2 with status := .failed, error_message := some "Failed to create Kubernetes service" }
            evs1
        else
          let w := runWait b.statusAt
          commitOr cs1 committed (applyExit d2 w.1) (evs1 ++ w.2.2)

/-- `DeploymentManager.scale_deployment`: patch the replica count; on
success set RUNNING and clear `error_message`, on failure set FAILED with
the fixed message; commit.  A raised exception (failing commit) is only
logged — the record keeps its last-committed state.  The record's
`replicas` column is not touched here (the route updates it). -/
def scale_deployment (b : K8sBehavior) (cs : List (Option String))
    (store0 : Option Deployment) (replicas : Nat) : Option Deployment × List Event :=
  match store0 with
  | none => (none, [])
  | some d =>
    let r := KubernetesManager.scale_deployment b d.deployment_name d.nspace replicas
    let d' := if r.1 then { d with status := DeploymentStatus.running, error_message := none }
              else { d with status := DeploymentStatus.failed
                          , error_message := some "Failed to scale deployment" }
    match cs.headD none with
    | none => (some d', r.2 ++ [Event.commit d'])
    | some _ => (store0, r.2)

/-- `DeploymentManager.stop_deployment`: scale to 0; on success set STOPPED,
`replicas := 0` and clear `error_message`, on failure FAILED with the fixed
message; commit.  A raised exception is only logged. -/
def stop_deployment (b : K8sBehavior) (cs : List (Option String))
    (store0 : Option Deployment) : Option Deployment × List Event :=
  match store0 with
  | none => (none, [])
  | some d =>
    let r := KubernetesManager.scale_deployment b d.deployment_name d.nspace 0
    let d' := if r.1 then { d with status := DeploymentStatus.stopped,
                                   replicas := 0, error_message := none }
              else { d with status := DeploymentStatus.failed
                          , error_message := some "Failed to stop deployment" }
    match cs.headD none with
    | none => (some d', r.2 ++ [Event.commit d'])
    | some _ => (store0, r.2)

/-- `DeploymentManager.delete_deployment`: ask the adapter to delete
workload and service; on `True` delete the record and commit, on `False`
set FAILED with the fixed message and commit.  A raised exception is only
logged (record kept). -/
def delete_deployment (b : K8sBehavior) (cs : List (Option String))
    (store0 : Option Deployment) : Option Deployment × List Event :=
  match store0 with
  | none => (none, [])
  | some d =>
    let r := KubernetesManager.delete_deployment b d.deployment_name d.nspace
    if r.1 then
      match cs.headD none with
      | none => (none, r.2 ++ [Event.dbDelete])
      | some _ => (store0, r.2)
    else
      let d' := { d with status := DeploymentStatus.failed
                       , error_message := some "Failed to delete deployment from Kubernetes" }
      match cs.headD none with
      | none => (some d', r.2 ++ [Event.commit d'])
      | some _ => (store0, r.2)

/-- `DeploymentManager.update_deployment`: delete the existing workload
(result ignored), sleep 5 seconds, re-fetch the owning MCP server
(`mcpLookup`); when absent commit FAILED "MCP server not found", otherwise
re-run the full deploy flow.  A raised exception is only logged. -/
def update_deployment (b : K8sBehavior) (cs : List (Option String))
    (store0 : Option Deployment) (mcpLookup : Option MCPServer) :
    Option Deployment × List Event :=
  match store0 with
  | none => (none, [])
  | some d =>
    let r := KubernetesManager.delete_deployment b d.deployment_name d.nspace
    match mcpLookup with
    | none =>
      let d' := { d with status := DeploymentStatus.failed
                       , error_message := some "MCP server not found" }
      match cs.headD none with
      | none => (some d', r.2 ++ [Event.commit d'])
      | some _ => (store0, r.2)
    | some m =>
      let res := deploy_mcp_server b cs store0 m
      (res.1, r.2 ++ res.2)

end DeploymentManager

/-- The body of `POST /deployments/` (`DeploymentCreateRequest`): optional
fields fall back to defaults with Python `or`, so `None`, `""` and `0` all
select the default. -/
structure DeploymentCreateRequest where
  name : String
  nspace : Option String
  cpu_limit : Option String
  memory_limit : Option String
  replicas : Option Nat
  port : Option Nat
  environment_variables : List (String × String)
  health_check_path : Option String
  deriving DecidableEq, Repr

/-- HTTP outcome of the create-deployment route. -/
inductive RouteOutcome where
  | rejected (code : Nat) (detail : String)
  | created
  deriving DecidableEq, Repr

/-- Everything the create-deployment route does synchronously: the HTTP
outcome, the record it committed (if any), whether a background
`deploy_mcp_server` task was queued, and the adapter calls it issued
itself (the route never talks to the cluster directly). -/
structure CreateRouteResult where
  outcome : RouteOutcome
  record : Option Deployment
  deployScheduled : Bool
  adapterEvents : List Event
  deriving DecidableEq, Repr

namespace Routes

/-- The record the route constructs before committing it
(`Deployment(...)` literal in `create_deployment`). -/
def newDeployment (idStr : String) (req : DeploymentCreateRequest) : Deployment :=
  { idStr := idStr
  , name := req.name
  , status := DeploymentStatus.pending
  , container_name := none
  , nspace := pyOrS req.nspace "mcphub"
  , deployment_name := none
  , service_name := none
  , cpu_limit := pyOrS req.cpu_limit "500m"
  , memory_limit := pyOrS req.memory_limit "512Mi"
  , replicas := pyOrN req.replicas 1
  , port := pyOrN req.port 8080
  , external_url := none
  , environment_variables := req.environment_variables
  , error_message := none
  , health_check_path := pyOrS req.health_check_path "/health" }

/-- `POST /deployments/` (`create_deployment` route): after the owner-scoped
lookup (`mcpLookup` is its result) it rejects with 404 when the server is
absent, 400 when its status is not READY, and 400 when its
`docker_image_name` is falsy — in each case before constructing the
record, committing anything, queueing the background deploy task or
touching the adapter.  Otherwise it commits a PENDING record and queues
`deploy_mcp_server`. -/
def create_deployment (idStr : String) (req : DeploymentCreateRequest)
    (mcpLookup : Option MCPServer) : CreateRouteResult :=
  match mcpLookup with
  | none =>
    { outcome := .rejected 404 "MCP server not found"
    , record := none, deployScheduled := false, adapterEvents := [] }
  | some m =>
    if m.status ≠ MCPServerStatus.ready then
      { outcome := .rejected 400
          ("MCP server must be in READY status, currently: " ++ m.status.value)
      , record := none, deployScheduled := false, adapterEvents := [] }
    else if pyFalsy m.docker_image_name then
      { outcome := .rejected 400 "MCP server does not have a Docker image"
      , record := none, deployScheduled := false, adapterEvents := [] }
    else
      { outcome := .created
      , record := some (newDeployment idStr req)
      , deployScheduled := true
      , adapterEvents := [] }

/-- `POST /deployments/{id}/scale` route followed by the background
`scale_deployment` task: the route writes `replicas := n` and status
SCALING and commits, then the manager runs.  The route's own commit is
assumed to succeed (its failure would be an HTTP 500 before any
background work). -/
def scale_deployment (b : K8sBehavior) (cs : List (Option String))
    (store0 : Option Deployment) (replicas : Nat) : Option Deployment × List Event :=
  match store0 with
  | none => (none, [])
  | some d =>
    let dr := { d with replicas := replicas, status := DeploymentStatus.scaling }
    let r := DeploymentManager.scale_deployment b cs (some dr) replicas
    (r.1, Event.commit dr :: r.2)

/-- `POST /deployments/{id}/stop` route followed by the background
`stop_deployment` task: the route writes status STOPPING and commits,
then the manager runs. -/
def stop_deployment (b : K8sBehavior) (cs : List (Option String))
    (store0 : Option Deployment) : Option Deployment × List Event :=
  match store0 with
  | none => (none, [])
  | some d =>
    let dr := { d with status := DeploymentStatus.stopping }
    let r := DeploymentManager.stop_deployment b cs (some dr)
    (r.1, Event.commit dr :: r.2)

end Routes

/-- Outcome of `MCPServerGenerator._generate_code`: either the output
directory and a log line, or the caught exception text and a log line
(the method never raises). -/
inductive GenStep where
  | ok (output_directory : String) (logs : String)
  | fail (error : String) (logs : String)
  deriving DecidableEq, Repr

/-- The dict `MCPServerGenerator._build_docker_image` returns: a success
flag and error/logs from the Docker builder, plus the image name and tag
it derives deterministically from the server record. -/
structure BuildOutcome where
  success : Bool
  image_name : String
  image_tag : String
  logs : String
  error : Option String
  deriving DecidableEq, Repr

namespace Generator

/-- The image coordinates `_build_docker_image` derives:
`f"{settings.docker.namespace}/mcp-server-{name.lower().replace(' ', '-')}"`
and `f"v{server.id.hex[:8]}"`. -/
def imageCoordinates (dockerNamespace : String) (s : MCPServer) : String × String :=
  (dockerNamespace ++ "/mcp-server-" ++ (s.name.toLower.replace " " "-"),
   "v" ++ (s.idHex.take 8))

/-- `_build_docker_image` composed with a Docker-builder outcome oracle
(`builderSuccess`, `builderLogs`, `builderErr`): the wrapper itself never
raises. -/
def build_docker_image (dockerNamespace : String) (builderSuccess : Bool)
    (builderLogs : String) (builderErr : Option String) (s : MCPServer) : BuildOutcome :=
  { success := builderSuccess
  , image_name := (imageCoordinates dockerNamespace s).1
  , image_tag := (imageCoordinates dockerNamespace s).2
  , logs := builderLogs
  , error := builderErr }

/-- The except-handler of `generate_mcp_server`: re-fetch the committed
record, set FAILED with `str(e)`, commit; if that also raises, log only. -/
def genHandleError (cs : List (Option String)) (committed : Option MCPServer)
    (msg : String) (trace : List MCPServer) : Option MCPServer × List MCPServer :=
  match committed with
  | none => (none, trace)
  | some s =>
    let s' := { s with status := MCPServerStatus.failed, error_message := some msg }
    match cs.headD none with
    | none => (some s', trace ++ [s'])
    | some _ => (committed, trace)

/-- A commit attempt inside `generate_mcp_server` whose failure is caught
by the outer except-handler. -/
def genCommitOr (cs : List (Option String)) (committed : Option MCPServer)
    (s : MCPServer) (trace : List MCPServer) : Option MCPServer × List MCPServer :=
  match cs.headD none with
  | none => (some s, trace ++ [s])
  | some m => genHandleError (cs.drop 1) committed m trace

/-- `MCPServerGenerator.generate_mcp_server`: fetch the record (no-op when
absent); commit GENERATING; run code generation (`genR`) — on failure
commit ERROR with the error text and captured log and stop; on success
commit the code path, generation log and BUILDING; run the image build
(`build`) — on failure commit ERROR with its error and build log and
stop; on success commit `docker_image_name`, `docker_image_tag`, the
build log and READY in one commit.  Returns the final committed record
and the committed-snapshot trace. -/
def generate_mcp_server (genR : GenStep) (build : BuildOutcome)
    (cs : List (Option String)) (store0 : Option MCPServer) :
    Option MCPServer × List MCPServer :=
  match store0 with
  | none => (none, [])
  | some s0 =>
    let s1 := { s0 with status := MCPServerStatus.generating }
    match cs.headD none with
    | some m => genHandleError (cs.drop 1) store0 m []
    | none =>
      let cs1 := cs.drop 1
      let committed := some s1
      match genR with
      | .fail e logs =>
        genCommitOr cs1 committed
          { s1 with status := MCPServerStatus.error, error_message := some e
                  , generation_logs := some logs } [s1]
      | .ok outdir logs =>
        let s2 := { s1 with generated_code_path := some outdir
                          , generation_logs := some logs
                          , status := MCPServerStatus.building }
        match cs1.headD none with
        | some m => genHandleError (cs1.drop 1) committed m [s1]
        | none =>
          let cs2 := cs1.drop 1
          let committed2 := some s2
          if build.success = false then
            genCommitOr cs2 committed2
              { s2 with status := MCPServerStatus.error, error_message := build.error
                      , build_logs := some build.logs } [s1, s2]
          else
            genCommitOr cs2 committed2
              { s2 with docker_image_name := some build.image_name
                      , docker_image_tag := some build.image_tag
                      , build_logs := some build.logs
                      , status := MCPServerStatus.ready } [s1, s2]

end Generator

/-- Concrete fixtures used by counterexamples and witnesses. -/
def stReady2 : WorkloadStatus :=
  { replicas := 2, ready_replicas := 2, available_replicas := 2
  , updated_replicas := 2, conditions := [] }

/-- A "Progressing: False" condition carrying message "X". -/
def condProgressFalse : DeploymentCondition :=
  { ctype := "Progressing", cstatus := "False"
  , reason := some "ProgressDeadlineExceeded", message := some "X" }

/-- A status that is not ready and reports `condProgressFalse`. -/
def stProgressing : WorkloadStatus :=
  { replicas := 2, ready_replicas := 0, available_replicas := 0
  , updated_replicas := 0, conditions := [condProgressFalse] }

/-- Fully cooperative cluster behaviour. -/
def bHappy : K8sBehavior :=
  { available := true, createWorkloadOk := true, createServiceOk := true
  , statusAt := fun _ => some stReady2, scaleOk := true
  , deleteWorkloadRes := ApiResult.ok, deleteServiceRes := ApiResult.ok }

/-- Cluster behaviour whose workload creation fails. -/
def bCreateFail : K8sBehavior := { bHappy with createWorkloadOk := false }

/-- Cluster behaviour answering 404 to both delete calls. -/
def bNotFound : K8sBehavior :=
  { bHappy with deleteWorkloadRes := ApiResult.notFound
              , deleteServiceRes := ApiResult.notFound }

/-- A fresh PENDING deployment record as the create route would commit it,
with a non-default health-check path. -/
def dDemo : Deployment :=
  { idStr := "d-1", name := "demo", status := DeploymentStatus.pending
  , container_name := none, nspace := "mcphub"
  , deployment_name := none, service_name := none
  , cpu_limit := "500m", memory_limit := "512Mi"
  , replicas := 2, port := 8080, external_url := none
  , environment_variables := [], error_message := none
  , health_check_path := "/custom" }

/-- A RUNNING deployment record with its derived names persisted. -/
def dSet : Deployment :=
  { dDemo with status := DeploymentStatus.running
             , deployment_name := some "mcp-demo"
             , service_name := some "mcp-demo-service"
             , container_name := some "mcp-demo"
             , health_check_path := "/health" }

/-- A READY MCP server with image coordinates. -/
def mcpDemo : MCPServer :=
  { idStr := "s-1", idHex := "abcdef0123456789", name := "demo api"
  , status := MCPServerStatus.ready, generated_code_path := some "/gen/demo"
  , docker_image_name := some "repo/demo", docker_image_tag := some "v1"
  , generation_logs := none, build_logs := none, error_message := none }

/-- A GENERATING MCP server without image coordinates. -/
def mcpFresh : MCPServer :=
  { mcpDemo with status := MCPServerStatus.pending
               , generated_code_path := none
               , docker_image_name := none, docker_image_tag := none }

/-- A request for the create-deployment route. -/
def reqDemo : DeploymentCreateRequest :=
  { name := "demo", nspace := some "mcphub", cpu_limit := none
  , memory_limit := none, replicas := some 2, port := some 8080
  , environment_variables := [], health_check_path := some "/custom" }

/-- The workload manifest `deploy_mcp_server` submits for `dDemo`/`mcpDemo`. -/
def manifestDemo : WorkloadManifest :=
  KubernetesManager.buildWorkloadManifest "mcp-demo" "mcphub" "repo/demo:v1" 8080 2
    "500m" "512Mi" []
    [("mcp-server-id", "s-1"), ("deployment-id", "d-1"), ("version", "v1")]

/-- The record `deploy_mcp_server` commits at the end of the happy path for
`dDemo`/`mcpDemo` under `bHappy`. -/
def dDoneDemo : Deployment :=
  { dDemo with status := DeploymentStatus.running
             , deployment_name := some "mcp-demo"
             , service_name := some "mcp-demo-service"
             , container_name := some "mcp-demo"
             , external_url := some "http://mcp-demo-service.mcphub.svc.cluster.local:8080" }

/-- A successful Docker build outcome for `mcpFresh`. -/
def buildDemo : BuildOutcome :=
  Generator.build_docker_image "jommcp" true "built 1 image" none mcpFresh

/-- Characterisation of the three poll-loop exits, for any starting
iteration the loop can actually reach and enough fuel: a ready exit
happens at a poll within the 300-second budget whose status satisfies the
readiness test; a progressing-failed exit happens at a poll within budget
whose status fails the readiness test and whose condition list contains a
"Progressing"/"False" entry supplying the message; a timeout exit happens
exactly at iteration 31 (elapsed 310 seconds). -/
theorem wait_loop_spec (statusAt : Nat → Option WorkloadStatus) :
    ∀ (fuel i : Nat) (acc : List Event), 31 < fuel + i → i ≤ 31 →
      (((DeploymentManager.wait_loop statusAt 300 fuel i acc).1 = WaitExit.ready →
          ∃ st, statusAt (DeploymentManager.wait_loop statusAt 300 fuel i acc).2.1 = some st ∧
            10 * (DeploymentManager.wait_loop statusAt 300 fuel i acc).2.1 ≤ 300 ∧
            st.ready_replicas = st.replicas ∧ 0 < st.ready_replicas) ∧
       (∀ m, (DeploymentManager.wait_loop statusAt 300 fuel i acc).1 = WaitExit.progressing_failed m →
          ∃ st c, statusAt (DeploymentManager.wait_loop statusAt 300 fuel i acc).2.1 = some st ∧
            10 * (DeploymentManager.wait_loop statusAt 300 fuel i acc).2.1 ≤ 300 ∧
            ¬(st.ready_replicas = st.replicas ∧ 0 < st.ready_replicas) ∧
            st.conditions.find? (fun c => c.ctype == "Progressing" && c.cstatus == "False") = some c ∧
            c.message = m) ∧
       ((DeploymentManager.wait_loop statusAt 300 fuel i acc).1 = WaitExit.timed_out →
          (DeploymentManager.wait_loop statusAt 300 fuel i acc).2.1 = 31)) := by
  intro fuel
  induction fuel with
  | zero => intro i acc h1 h2; omega
  | succ n ih =>
    intro i acc h1 h2
    by_cases ht : 300 < 10 * i
    · have hi : i = 31 := by omega
      simp only [DeploymentManager.wait_loop, if_pos ht]
      refine ⟨?_, ?_, ?_⟩ <;> intro h <;> simp_all
    · simp only [DeploymentManager.wait_loop, if_neg ht]
      cases hst : statusAt i with
      | none =>
        exact ih (i + 1) (acc ++ [Event.getStatus i]) (by omega) (by omega)
      | some st =>
        by_cases hr : st.ready_replicas = st.replicas ∧ 0 < st.ready_replicas
        · simp only [if_pos hr]
          refine ⟨?_, ?_, ?_⟩
          · intro _; exact ⟨st, hst, by omega, hr.1, hr.2⟩
          · intro m hm; cases hm
          · intro hm; cases hm
        · simp only [if_neg hr]
          cases hf : st.conditions.find? (fun c => c.ctype == "Progressing" && c.cstatus == "False") with
          | none =>
            exact ih (i + 1) (acc ++ [Event.getStatus i]) (by omega) (by omega)
          | some c =>
            dsimp only
            refine ⟨?_, ?_, ?_⟩
            · intro h; cases h
            · intro m hm
              refine ⟨st, c, hst, by omega, hr, hf, ?_⟩
              cases hm; rfl
            · intro h; cases h


/-- The readiness poll loop emits only status-read events. -/
theorem wait_loop_events (statusAt : Nat → Option WorkloadStatus) :
    ∀ (fuel i : Nat) (acc : List Event),
      ∀ ev ∈ (DeploymentManager.wait_loop statusAt 300 fuel i acc).2.2,
        ev ∈ acc ∨ ∃ j, ev = Event.getStatus j := by
  intro fuel
  induction fuel with
  | zero => intro i acc ev hev; exact Or.inl hev
  | succ n ih =>
    intro i acc ev hev
    by_cases ht : 300 < 10 * i
    · simp only [DeploymentManager.wait_loop, if_pos ht] at hev
      exact Or.inl hev
    · simp only [DeploymentManager.wait_loop, if_neg ht] at hev
      cases hst : statusAt i with
      | none =>
        simp only [hst] at hev
        rcases ih (i + 1) (acc ++ [Event.getStatus i]) ev hev with h | h
        · rcases List.mem_append.1 h with h' | h'
          · exact Or.inl h'
          · exact Or.inr ⟨i, List.mem_singleton.1 h'⟩
        · exact Or.inr h
      | some st =>
        simp only [hst] at hev
        by_cases hr : st.ready_replicas = st.replicas ∧ 0 < st.ready_replicas
        · rw [if_pos hr] at hev
          rcases List.mem_append.1 hev with h' | h'
          · exact Or.inl h'
          · exact Or.inr ⟨i, List.mem_singleton.1 h'⟩
        · rw [if_neg hr] at hev
          cases hf : st.conditions.find? (fun c => c.ctype == "Progressing" && c.cstatus == "False") with
          | none =>
            simp only [hf] at hev
            rcases ih (i + 1) (acc ++ [Event.getStatus i]) ev hev with h | h
            · rcases List.mem_append.1 h with h' | h'
              · exact Or.inl h'
              · exact Or.inr ⟨i, List.mem_singleton.1 h'⟩
            · exact Or.inr h
          | some c =>
            simp only [hf] at hev
            rcases List.mem_append.1 hev with h' | h'
            · exact Or.inl h'
            · exact Or.inr ⟨i, List.mem_singleton.1 h'⟩

/-- C1 (amended): provided every persistence commit succeeds, a completed
`deploy_mcp_server` run on an existing record always leaves the committed
status RUNNING or FAILED — never DEPLOYING.  The unamended claim fails
when the persistence layer raises on a mid-flow commit and again on the
error-handler's recovery commit (see the counterexample). -/
theorem C1_deploy_ends_running_or_failed (b : K8sBehavior) (d : Deployment) (m : MCPServer) :
    (DeploymentManager.deploy_mcp_server b [] (some d) m).1.map Deployment.status =
        some DeploymentStatus.running ∨
    (DeploymentManager.deploy_mcp_server b [] (some d) m).1.map Deployment.status =
        some DeploymentStatus.failed := by
  by_cases hb : b.available = true
  · by_cases hcw : b.createWorkloadOk = true
    · by_cases hcs : b.createServiceOk = true
      · cases hw : (DeploymentManager.runWait b.statusAt).1 with
        | ready =>
          left
          simp [DeploymentManager.deploy_mcp_server, KubernetesManager.create_deployment,
            KubernetesManager.create_service, DeploymentManager.commitOr,
            DeploymentManager.applyExit, hb, hcw, hcs, hw]
        | progressing_failed msg =>
          right
          simp [DeploymentManager.deploy_mcp_server, KubernetesManager.create_deployment,
            KubernetesManager.create_service, DeploymentManager.commitOr,
            DeploymentManager.applyExit, hb, hcw, hcs, hw]
        | timed_out =>
          right
          simp [DeploymentManager.deploy_mcp_server, KubernetesManager.create_deployment,
            KubernetesManager.create_service, DeploymentManager.commitOr,
            DeploymentManager.applyExit, hb, hcw, hcs, hw]
      · right
        simp [DeploymentManager.deploy_mcp_server, KubernetesManager.create_deployment,
          KubernetesManager.create_service, DeploymentManager.commitOr, hb, hcw, hcs]
    · right
      simp [DeploymentManager.deploy_mcp_server, KubernetesManager.create_deployment,
        DeploymentManager.commitOr, hb, hcw]
  · right
    simp [DeploymentManager.deploy_mcp_server, KubernetesManager.create_deployment,
      DeploymentManager.commitOr, hb]

/-- C1 counterexample: the workload creation fails and the persistence layer
raises both on the FAILED commit and on the error-handler's recovery
commit; the run completes without raising, yet the committed record is
left in DEPLOYING — neither RUNNING nor FAILED. -/
theorem C1_counterexample :
    (DeploymentManager.deploy_mcp_server bCreateFail
        [none, some "db write failed", some "db write failed"]
        (some dDemo) mcpDemo).1.map Deployment.status =
      some DeploymentStatus.deploying := by
  rfl

/-- C2: the readiness poll loop has exactly the three claimed exits.  A
ready exit happens at a poll within the 300-second budget whose status has
`ready_replicas == replicas > 0`, and the exit mutation sets RUNNING and
the in-cluster service URL; a progressing-failed exit happens at a poll
within budget whose status is not ready and whose conditions contain a
"Progressing"/"False" entry, and the exit mutation sets FAILED with that
condition's message (so the loop does not wait for the timeout); a timeout
exit happens exactly at poll 31 — more than 300 seconds (310) after entry
with one poll every 10 seconds — and sets FAILED with "Deployment
timeout". -/
theorem C2_poll_loop_three_exits (statusAt : Nat → Option WorkloadStatus) (d : Deployment) :
    (((DeploymentManager.runWait statusAt).1 = WaitExit.ready →
        (∃ st, statusAt (DeploymentManager.runWait statusAt).2.1 = some st ∧
          10 * (DeploymentManager.runWait statusAt).2.1 ≤ 300 ∧
          st.ready_replicas = st.replicas ∧ 0 < st.ready_replicas) ∧
        (DeploymentManager.applyExit d WaitExit.ready).status = DeploymentStatus.running ∧
        (DeploymentManager.applyExit d WaitExit.ready).external_url =
          some (DeploymentManager.clusterUrl d)) ∧
     (∀ msg, (DeploymentManager.runWait statusAt).1 = WaitExit.progressing_failed msg →
        (∃ st c, statusAt (DeploymentManager.runWait statusAt).2.1 = some st ∧
          10 * (DeploymentManager.runWait statusAt).2.1 ≤ 300 ∧
          ¬(st.ready_replicas = st.replicas ∧ 0 < st.ready_replicas) ∧
          st.conditions.find? (fun c => c.ctype == "Progressing" && c.cstatus == "False") = some c ∧
          c.message = msg) ∧
        (DeploymentManager.applyExit d (WaitExit.progressing_failed msg)).status = DeploymentStatus.failed ∧
        (DeploymentManager.applyExit d (WaitExit.progressing_failed msg)).error_message = msg) ∧
     ((DeploymentManager.runWait statusAt).1 = WaitExit.timed_out →
        (DeploymentManager.runWait statusAt).2.1 = 31 ∧
        (DeploymentManager.applyExit d WaitExit.timed_out).status = DeploymentStatus.failed ∧
        (DeploymentManager.applyExit d WaitExit.timed_out).error_message = some "Deployment timeout")) := by
  have h := wait_loop_spec statusAt 32 0 [] (by omega) (by omega)
  exact ⟨fun hr => ⟨h.1 hr, rfl, rfl⟩,
         fun m hm => ⟨h.2.1 m hm, rfl, rfl⟩,
         fun ht => ⟨h.2.2 ht, rfl, rfl⟩⟩

/-- C2 witness: a mocked adapter that always reports a "Progressing: False"
condition with message "X" makes the loop exit at the very first poll with
a FAILED mutation carrying error message "X". -/
theorem C2_poll_loop_three_exits_witness :
    (DeploymentManager.runWait (fun _ => some stProgressing)).1 =
      WaitExit.progressing_failed (some "X") ∧
    ((∃ st c, (fun _ => some stProgressing : Nat → Option WorkloadStatus)
          ((DeploymentManager.runWait (fun _ => some stProgressing)).2.1) = some st ∧
        10 * (DeploymentManager.runWait (fun _ => some stProgressing)).2.1 ≤ 300 ∧
        ¬(st.ready_replicas = st.replicas ∧ 0 < st.ready_replicas) ∧
        st.conditions.find? (fun c => c.ctype == "Progressing" && c.cstatus == "False") = some c ∧
        c.message = some "X") ∧
      (DeploymentManager.applyExit dDemo (WaitExit.progressing_failed (some "X"))).status =
        DeploymentStatus.failed ∧
      (DeploymentManager.applyExit dDemo (WaitExit.progressing_failed (some "X"))).error_message =
        some "X") :=
  ⟨by decide,
   (C2_poll_loop_three_exits (fun _ => some stProgressing) dDemo).2.1 (some "X") (by decide)⟩

/-- C3 counterexample: Scale on a RUNNING record with a persistence layer
whose commit raises.  The exception is caught — the call completes — but
the committed record keeps status RUNNING with no error message: there is
no FAILED transition and the exception's message is not stored, contrary
to the claim that every operation converts caught exceptions into a
FAILED transition. -/
theorem C3_counterexample :
    (DeploymentManager.scale_deployment bHappy [some "database connection lost"]
        (some dSet) 0).1 = some dSet ∧
    dSet.status = DeploymentStatus.running ∧ dSet.error_message = none :=
  ⟨rfl, rfl, rfl⟩

/-- C3 (amended): no operation lets an exception escape, but only Deploy
converts a caught exception into a FAILED transition with the exception's
message; Scale, Stop, Delete and UpdateDeployment merely log it and leave
the record in its last-committed state.  (Modelled exceptions are
persistence-commit failures: the adapter methods catch internally and
never raise.) -/
theorem C3_only_deploy_records_caught_exceptions (b : K8sBehavior) (d : Deployment)
    (r : Nat) (msg : String) (mcp : MCPServer) :
    (DeploymentManager.scale_deployment b [some msg] (some d) r).1 = some d ∧
    (DeploymentManager.stop_deployment b [some msg] (some d)).1 = some d ∧
    (DeploymentManager.delete_deployment b [some msg] (some d)).1 = some d ∧
    (DeploymentManager.update_deployment b [some msg] (some d) none).1 = some d ∧
    (DeploymentManager.deploy_mcp_server b [none, some msg] (some d) mcp).1 =
      some { d with status := DeploymentStatus.failed, error_message := some msg } := by
  refine ⟨rfl, rfl, ?_, rfl, ?_⟩
  · simp only [DeploymentManager.delete_deployment]
    split <;> rfl
  · by_cases hb : b.available = true
    · by_cases hcw : b.createWorkloadOk = true
      · by_cases hcs : b.createServiceOk = true
        · simp [DeploymentManager.deploy_mcp_server, KubernetesManager.create_deployment,
            KubernetesManager.create_service, DeploymentManager.commitOr,
            DeploymentManager.handleDeployError, hb, hcw, hcs]
        · simp [DeploymentManager.deploy_mcp_server, KubernetesManager.create_deployment,
            KubernetesManager.create_service, DeploymentManager.commitOr,
            DeploymentManager.handleDeployError, hb, hcw, hcs]
      · simp [DeploymentManager.deploy_mcp_server, KubernetesManager.create_deployment,
          DeploymentManager.commitOr, DeploymentManager.handleDeployError, hb, hcw]
    · simp [DeploymentManager.deploy_mcp_server, KubernetesManager.create_deployment,
        DeploymentManager.commitOr, DeploymentManager.handleDeployError, hb]

/-- C4 counterexample: a concrete Delete run against a cooperative cluster.
The first adapter call is the workload deletion and the service deletion
comes second — the claimed order (service first, then workload) is the
reverse of what the code does. -/
theorem C4_counterexample :
    DeploymentManager.delete_deployment bHappy [] (some dSet) =
      (none, [Event.deleteWorkload "mcp-demo" "mcphub",
              Event.deleteService "mcp-demo-service" "mcphub",
              Event.dbDelete]) :=
  rfl

/-- C4 (amended): Delete removes the workload resource first and then the
service, treating a 404 from the adapter as success for either call; on
adapter success the record is removed from the store with no FAILED
transition (in particular when both calls answer 404); on adapter failure
the record is kept and set to FAILED with an error message (a raised error
on the workload call also skips the service call). -/
theorem C4_delete_order_and_idempotency (b : K8sBehavior) (d : Deployment)
    (hav : b.available = true) :
    (b.deleteWorkloadRes.isBenign = true → b.deleteServiceRes.isBenign = true →
      DeploymentManager.delete_deployment b [] (some d) =
        (none, [Event.deleteWorkload (pyStr d.deployment_name) d.nspace,
                Event.deleteService (pyStr d.deployment_name ++ "-service") d.nspace,
                Event.dbDelete])) ∧
    (b.deleteWorkloadRes.isBenign = false →
      DeploymentManager.delete_deployment b [] (some d) =
        (some { d with status := DeploymentStatus.failed,
                       error_message := some "Failed to delete deployment from Kubernetes" },
         [Event.deleteWorkload (pyStr d.deployment_name) d.nspace,
          Event.commit { d with status := DeploymentStatus.failed,
                                error_message := some "Failed to delete deployment from Kubernetes" }])) ∧
    (b.deleteWorkloadRes.isBenign = true → b.deleteServiceRes.isBenign = false →
      DeploymentManager.delete_deployment b [] (some d) =
        (some { d with status := DeploymentStatus.failed,
                       error_message := some "Failed to delete deployment from Kubernetes" },
         [Event.deleteWorkload (pyStr d.deployment_name) d.nspace,
          Event.deleteService (pyStr d.deployment_name ++ "-service") d.nspace,
          Event.commit { d with status := DeploymentStatus.failed,
                                error_message := some "Failed to delete deployment from Kubernetes" }])) := by
  refine ⟨?_, ?_, ?_⟩
  · intro h1 h2
    simp [DeploymentManager.delete_deployment, KubernetesManager.delete_deployment, hav, h1, h2]
  · intro h1
    simp [DeploymentManager.delete_deployment, KubernetesManager.delete_deployment, hav, h1]
  · intro h1 h2
    simp [DeploymentManager.delete_deployment, KubernetesManager.delete_deployment, hav, h1, h2]

/-- C4 witness: both adapter calls answer 404 and the record is removed
with no FAILED transition (no commit event, only the record deletion). -/
theorem C4_delete_order_and_idempotency_witness :
    bNotFound.available = true ∧
    bNotFound.deleteWorkloadRes.isBenign = true ∧
    bNotFound.deleteServiceRes.isBenign = true ∧
    DeploymentManager.delete_deployment bNotFound [] (some dSet) =
      (none, [Event.deleteWorkload (pyStr dSet.deployment_name) dSet.nspace,
              Event.deleteService (pyStr dSet.deployment_name ++ "-service") dSet.nspace,
              Event.dbDelete]) :=
  ⟨rfl, rfl, rfl, (C4_delete_order_and_idempotency bNotFound dSet rfl).1 rfl rfl⟩

/-- C7: Scale to 0 and Stop are observably different on success, and carry
the claimed fixed messages on adapter failure: a successful Scale(d, 0)
leaves status RUNNING with `replicas = 0` and a cleared error message, a
failed one status FAILED with "Failed to scale deployment"; a successful
Stop leaves status STOPPED with `replicas = 0` and a cleared error
message, a failed one status FAILED with "Failed to stop deployment".
(The route writes the new replica count before the background task runs,
which is why a failed Scale also shows `replicas = 0`.) -/
theorem C7_scale_vs_stop (b : K8sBehavior) (d : Deployment) :
    (Routes.scale_deployment b [] (some d) 0).1 =
      some (if b.available && b.scaleOk then
              { d with replicas := 0, status := DeploymentStatus.running,
                       error_message := none }
            else
              { d with replicas := 0, status := DeploymentStatus.failed,
                       error_message := some "Failed to scale deployment" }) ∧
    (Routes.stop_deployment b [] (some d)).1 =
      some (if b.available && b.scaleOk then
              { d with status := DeploymentStatus.stopped, replicas := 0,
                       error_message := none }
            else
              { d with status := DeploymentStatus.failed,
                       error_message := some "Failed to stop deployment" }) := by
  by_cases hb : b.available = true
  · by_cases hs : b.scaleOk = true
    · constructor
      · simp [Routes.scale_deployment, DeploymentManager.scale_deployment,
          KubernetesManager.scale_deployment, hb, hs]
      · simp [Routes.stop_deployment, DeploymentManager.stop_deployment,
          KubernetesManager.scale_deployment, hb, hs]
    · constructor
      · simp [Routes.scale_deployment, DeploymentManager.scale_deployment,
          KubernetesManager.scale_deployment, hb, hs]
      · simp [Routes.stop_deployment, DeploymentManager.stop_deployment,
          KubernetesManager.scale_deployment, hb, hs]
  · constructor
    · simp [Routes.scale_deployment, DeploymentManager.scale_deployment,
        KubernetesManager.scale_deployment, hb]
    · simp [Routes.stop_deployment, DeploymentManager.stop_deployment,
        KubernetesManager.scale_deployment, hb]

/-- C9: the create-deployment route rejects synchronously — with 404 when
the owner-scoped lookup finds no MCP server, with 400 when the server is
not READY, and with a 400 rejection when its Docker image name is unset or
empty — and in every rejection case it commits no deployment record,
queues no background deploy task and issues no cluster-adapter call. -/
theorem C9_route_rejects_before_any_work (idStr : String)
    (req : DeploymentCreateRequest) (mcpLookup : Option MCPServer) :
    (mcpLookup = none →
       Routes.create_deployment idStr req mcpLookup =
         { outcome := RouteOutcome.rejected 404 "MCP server not found"
         , record := none, deployScheduled := false, adapterEvents := [] }) ∧
    (∀ m, mcpLookup = some m → m.status ≠ MCPServerStatus.ready →
       Routes.create_deployment idStr req mcpLookup =
         { outcome := RouteOutcome.rejected 400
             ("MCP server must be in READY status, currently: " ++ m.status.value)
         , record := none, deployScheduled := false, adapterEvents := [] }) ∧
    (∀ m, mcpLookup = some m → pyFalsy m.docker_image_name = true →
       (Routes.create_deployment idStr req mcpLookup).record = none ∧
       (Routes.create_deployment idStr req mcpLookup).deployScheduled = false ∧
       (Routes.create_deployment idStr req mcpLookup).adapterEvents = [] ∧
       ∃ code detail, (Routes.create_deployment idStr req mcpLookup).outcome =
         RouteOutcome.rejected code detail) := by
  refine ⟨?_, ?_, ?_⟩
  · intro h; subst h; rfl
  · intro m hm hs; subst hm
    simp [Routes.create_deployment, hs]
  · intro m hm himg; subst hm
    by_cases hs : m.status = MCPServerStatus.ready
    · simp [Routes.create_deployment, hs, himg]
    · simp [Routes.create_deployment, hs]

/-- C9 witness: a deployment request for a PENDING server (image unset) is
rejected with 400 and nothing else happens. -/
theorem C9_route_rejects_before_any_work_witness :
    Routes.create_deployment "d-1" reqDemo (some mcpFresh) =
      { outcome := RouteOutcome.rejected 400
          ("MCP server must be in READY status, currently: " ++ MCPServerStatus.value mcpFresh.status)
      , record := none, deployScheduled := false, adapterEvents := [] } :=
  (C9_route_rejects_before_any_work "d-1" reqDemo (some mcpFresh)).2.1 mcpFresh rfl (by decide)

/-- C10 (implicit): a failed or unavailable workload-status read never by
itself causes a FAILED transition.  The adapter's status read returns
`None` when unavailable or when the cluster read raises; inside the poll
loop a `None` read within the time budget performs no write and no exit —
the loop just records the read and polls again — and an adapter that
never returns a status drives the loop to the 310-second timeout exit,
whose mutation is FAILED with exactly "Deployment timeout". -/
theorem C10_adapter_failure_only_times_out (d : Deployment) :
    (∀ r, KubernetesManager.get_deployment_status false r = none) ∧
    (∀ msg, KubernetesManager.get_deployment_status true (Except.error msg) = none) ∧
    (∀ (statusAt : Nat → Option WorkloadStatus) (fuel i : Nat) (acc : List Event),
       10 * i ≤ 300 → statusAt i = none →
       DeploymentManager.wait_loop statusAt 300 (fuel + 1) i acc =
         DeploymentManager.wait_loop statusAt 300 fuel (i + 1) (acc ++ [Event.getStatus i])) ∧
    (∀ (statusAt : Nat → Option WorkloadStatus), (∀ i, statusAt i = none) →
       (DeploymentManager.runWait statusAt).1 = WaitExit.timed_out ∧
       (DeploymentManager.runWait statusAt).2.1 = 31 ∧
       DeploymentManager.applyExit d (DeploymentManager.runWait statusAt).1 =
         { d with status := DeploymentStatus.failed,
                  error_message := some "Deployment timeout" }) := by
  refine ⟨fun r => rfl, fun msg => rfl, ?_, ?_⟩
  · intro statusAt fuel i acc hti hnone
    simp only [DeploymentManager.wait_loop, if_neg (by omega : ¬ 300 < 10 * i), hnone]
  · intro statusAt hall
    have h := wait_loop_spec statusAt 32 0 [] (by omega) (by omega)
    have hex : (DeploymentManager.runWait statusAt).1 = WaitExit.timed_out := by
      cases hw : (DeploymentManager.runWait statusAt).1 with
      | ready =>
        rcases h.1 hw with ⟨st, hst, -⟩
        rw [hall] at hst; cases hst
      | progressing_failed m =>
        rcases h.2.1 m hw with ⟨st, c, hst, -⟩
        rw [hall] at hst; cases hst
      | timed_out => rfl
    exact ⟨hex, h.2.2 hex, by rw [hex]; rfl⟩

/-- C10 witness: the always-failing adapter (every status read `None`)
drives the loop to the timeout exit at poll 31 with the fixed message. -/
theorem C10_adapter_failure_only_times_out_witness :
    (DeploymentManager.runWait (fun _ => none)).1 = WaitExit.timed_out ∧
    (DeploymentManager.runWait (fun _ => none)).2.1 = 31 ∧
    DeploymentManager.applyExit dDemo (DeploymentManager.runWait (fun _ => none)).1 =
      { dDemo with status := DeploymentStatus.failed,
                   error_message := some "Deployment timeout" } :=
  (C10_adapter_failure_only_times_out dDemo).2.2.2 (fun _ => none) (fun _ => rfl)

/-- The exit mutation of the poll loop touches only `status`,
`external_url` and `error_message` — never the derived names. -/
theorem applyExit_names (d : Deployment) (ex : WaitExit) :
    (DeploymentManager.applyExit d ex).deployment_name = d.deployment_name ∧
    (DeploymentManager.applyExit d ex).service_name = d.service_name ∧
    (DeploymentManager.applyExit d ex).container_name = d.container_name := by
  cases ex <;> exact ⟨rfl, rfl, rfl⟩

/-- C5 counterexample: deploying `dDemo`, whose `health_check_path` is
"/custom", submits a workload manifest whose probes point at the fixed
path "/health" — not at the record's `health_check_path`. -/
theorem C5_counterexample :
    (DeploymentManager.deploy_mcp_server bHappy [] (some dDemo) mcpDemo).2[2]? =
      some (Event.createWorkload manifestDemo) ∧
    manifestDemo.liveness_probe.path = "/health" ∧
    manifestDemo.readiness_probe.path = "/health" ∧
    dDemo.health_check_path = "/custom" ∧
    manifestDemo.liveness_probe.path ≠ dDemo.health_check_path := by
  exact ⟨rfl, rfl, rfl, rfl, by decide⟩

/-- C5 (amended): every workload manifest Deploy submits carries liveness
and readiness probes on the fixed path "/health" (the model default of
`health_check_path`, not the record's configured value) at the record's
target port, with the readiness initial delay (5s) shorter than the
liveness initial delay (30s). -/
theorem C5_probes_fixed_path_and_delays (b : K8sBehavior) (d : Deployment) (m : MCPServer)
    (M : WorkloadManifest)
    (hM : Event.createWorkload M ∈ (DeploymentManager.deploy_mcp_server b [] (some d) m).2) :
    M.liveness_probe = { path := "/health", port := d.port
                       , initial_delay_seconds := 30, period_seconds := 10 } ∧
    M.readiness_probe = { path := "/health", port := d.port
                        , initial_delay_seconds := 5, period_seconds := 5 } ∧
    M.readiness_probe.initial_delay_seconds < M.liveness_probe.initial_delay_seconds := by
  by_cases hb : b.available = true
  · by_cases hcw : b.createWorkloadOk = true
    · by_cases hcs : b.createServiceOk = true
      · simp [DeploymentManager.deploy_mcp_server, KubernetesManager.create_deployment,
          KubernetesManager.create_service, DeploymentManager.commitOr,
          DeploymentManager.runWait, hb, hcw, hcs] at hM
        rcases hM with hM | hM
        · subst hM; exact ⟨rfl, rfl, (by decide : (5 : Nat) < 30)⟩
        · rcases wait_loop_events b.statusAt 32 0 [] _ hM with h | ⟨j, hj⟩
          · simp at h
          · cases hj
      · simp [DeploymentManager.deploy_mcp_server, KubernetesManager.create_deployment,
          KubernetesManager.create_service, DeploymentManager.commitOr, hb, hcw, hcs] at hM
        subst hM; exact ⟨rfl, rfl, (by decide : (5 : Nat) < 30)⟩
    · simp [DeploymentManager.deploy_mcp_server, KubernetesManager.create_deployment,
        DeploymentManager.commitOr, hb, hcw] at hM
      subst hM; exact ⟨rfl, rfl, (by decide : (5 : Nat) < 30)⟩
  · simp [DeploymentManager.deploy_mcp_server, KubernetesManager.create_deployment,
      DeploymentManager.commitOr, hb] at hM

/-- C5 witness: the happy-path deploy of `dDemo` submits `manifestDemo`,
whose probes sit on "/health" at port 8080 with delays 5 and 30. -/
theorem C5_probes_fixed_path_and_delays_witness :
    Event.createWorkload manifestDemo ∈
      (DeploymentManager.deploy_mcp_server bHappy [] (some dDemo) mcpDemo).2 ∧
    manifestDemo.liveness_probe = { path := "/health", port := dDemo.port
                                  , initial_delay_seconds := 30, period_seconds := 10 } ∧
    manifestDemo.readiness_probe = { path := "/health", port := dDemo.port
                                   , initial_delay_seconds := 5, period_seconds := 5 } ∧
    manifestDemo.readiness_probe.initial_delay_seconds <
      manifestDemo.liveness_probe.initial_delay_seconds :=
  ⟨by decide,
   C5_probes_fixed_path_and_delays bHappy dDemo mcpDemo manifestDemo (by decide)⟩

/-- C6 counterexample: on the happy path the only commit preceding the
workload-creation adapter call is the DEPLOYING commit, whose snapshot
still has no `deployment_name`/`service_name` — the derived names are not
committed before the adapter call, contrary to the claim. -/
theorem C6_counterexample :
    (DeploymentManager.deploy_mcp_server bHappy [] (some dDemo) mcpDemo).2.take 3 =
      [Event.commit { dDemo with status := DeploymentStatus.deploying },
       Event.ensureNamespace "mcphub",
       Event.createWorkload manifestDemo] ∧
    ({ dDemo with status := DeploymentStatus.deploying } : Deployment).deployment_name = none ∧
    ({ dDemo with status := DeploymentStatus.deploying } : Deployment).service_name = none ∧
    ({ dDemo with status := DeploymentStatus.deploying } : Deployment).container_name = none :=
  ⟨rfl, rfl, rfl, rfl⟩

/-- C6 (amended): the derived names are assigned to the in-memory record
immediately after derivation, before the workload-creation adapter call,
but they are first persisted only by the next commit after that call: the
first event of every Deploy run is the DEPLOYING commit of the unchanged
record, and every later commit carries all three derived names. -/
theorem C6_names_in_memory_not_committed_before_call (b : K8sBehavior) (d : Deployment)
    (m : MCPServer) :
    ((DeploymentManager.deploy_mcp_server b [] (some d) m).2.head? =
       some (Event.commit { d with status := DeploymentStatus.deploying })) ∧
    (∀ d', Event.commit d' ∈ (DeploymentManager.deploy_mcp_server b [] (some d) m).2.tail →
       d'.deployment_name = some ("mcp-" ++ d.name) ∧
       d'.service_name = some ("mcp-" ++ d.name ++ "-service") ∧
       d'.container_name = some ("mcp-" ++ d.name)) := by
  by_cases hb : b.available = true
  · by_cases hcw : b.createWorkloadOk = true
    · by_cases hcs : b.createServiceOk = true
      · constructor
        · simp [DeploymentManager.deploy_mcp_server, KubernetesManager.create_deployment,
            KubernetesManager.create_service, DeploymentManager.commitOr,
            DeploymentManager.runWait, hb, hcw, hcs]
        · intro d' hd'
          simp [DeploymentManager.deploy_mcp_server, KubernetesManager.create_deployment,
            KubernetesManager.create_service, DeploymentManager.commitOr,
            DeploymentManager.runWait, hb, hcw, hcs] at hd'
          rcases hd' with hd' | hd'
          · rcases wait_loop_events b.statusAt 32 0 [] _ hd' with h | ⟨j, hj⟩
            · simp at h
            · cases hj
          · subst hd'
            cases hex : (DeploymentManager.runWait b.statusAt).1 <;>
              simp [DeploymentManager.runWait] at hex <;>
              simp [DeploymentManager.applyExit, hex]
      · constructor
        · simp [DeploymentManager.deploy_mcp_server, KubernetesManager.create_deployment,
            KubernetesManager.create_service, DeploymentManager.commitOr, hb, hcw, hcs]
        · intro d' hd'
          simp [DeploymentManager.deploy_mcp_server, KubernetesManager.create_deployment,
            KubernetesManager.create_service, DeploymentManager.commitOr, hb, hcw, hcs] at hd'
          subst hd'; exact ⟨rfl, rfl, rfl⟩
    · constructor
      · simp [DeploymentManager.deploy_mcp_server, KubernetesManager.create_deployment,
          DeploymentManager.commitOr, hb, hcw]
      · intro d' hd'
        simp [DeploymentManager.deploy_mcp_server, KubernetesManager.create_deployment,
          DeploymentManager.commitOr, hb, hcw] at hd'
        subst hd'; exact ⟨rfl, rfl, rfl⟩
  · constructor
    · simp [DeploymentManager.deploy_mcp_server, KubernetesManager.create_deployment,
        DeploymentManager.commitOr, hb]
    · intro d' hd'
      simp [DeploymentManager.deploy_mcp_server, KubernetesManager.create_deployment,
        DeploymentManager.commitOr, hb] at hd'
      subst hd'; exact ⟨rfl, rfl, rfl⟩

/-- C6 witness: the final commit of the happy-path deploy of `dDemo` sits
after the workload-creation call and carries all three derived names. -/
theorem C6_names_in_memory_not_committed_before_call_witness :
    Event.commit dDoneDemo ∈
      (DeploymentManager.deploy_mcp_server bHappy [] (some dDemo) mcpDemo).2.tail ∧
    dDoneDemo.deployment_name = some ("mcp-" ++ dDemo.name) ∧
    dDoneDemo.service_name = some ("mcp-" ++ dDemo.name ++ "-service") ∧
    dDoneDemo.container_name = some ("mcp-" ++ dDemo.name) :=
  ⟨by decide,
   (C6_names_in_memory_not_committed_before_call bHappy dDemo mcpDemo).2 dDoneDemo (by decide)⟩

/-- The generator's except-handler preserves "images set iff READY" when
the committed record carries no image fields and has not reached READY. -/
theorem genHandleError_inv (cs : List (Option String)) (msg : String)
    (s : MCPServer) (trace : List MCPServer)
    (hn : s.docker_image_name = none) (ht : s.docker_image_tag = none)
    (hs : s.status ≠ MCPServerStatus.ready)
    (htr : ∀ c ∈ trace, ((c.docker_image_name ≠ none ∧ c.docker_image_tag ≠ none) ↔
        c.status = MCPServerStatus.ready)) :
    (∃ s', (Generator.genHandleError cs (some s) msg trace).1 = some s' ∧
       ((s'.docker_image_name ≠ none ∧ s'.docker_image_tag ≠ none) ↔
         s'.status = MCPServerStatus.ready)) ∧
    (∀ c ∈ (Generator.genHandleError cs (some s) msg trace).2,
       ((c.docker_image_name ≠ none ∧ c.docker_image_tag ≠ none) ↔
         c.status = MCPServerStatus.ready)) := by
  cases hc : cs.headD none with
  | none =>
    simp only [Generator.genHandleError, hc]
    refine ⟨⟨_, rfl, ?_⟩, ?_⟩
    · simp [hn, ht]
    · intro c hcm
      rcases List.mem_append.1 hcm with h | h
      · exact htr c h
      · rw [List.mem_singleton.1 h]; simp [hn, ht]
  | some m =>
    simp only [Generator.genHandleError, hc]
    refine ⟨⟨s, rfl, ?_⟩, htr⟩
    simp [hn, ht, hs]

/-- A generator commit point preserves "images set iff READY" when the
committed record carries no image fields, has not reached READY, and the
record being committed satisfies the invariant. -/
theorem genCommitOr_inv (cs : List (Option String)) (s x : MCPServer) (trace : List MCPServer)
    (hn : s.docker_image_name = none) (ht : s.docker_image_tag = none)
    (hs : s.status ≠ MCPServerStatus.ready)
    (hx : (x.docker_image_name ≠ none ∧ x.docker_image_tag ≠ none) ↔
      x.status = MCPServerStatus.ready)
    (htr : ∀ c ∈ trace, ((c.docker_image_name ≠ none ∧ c.docker_image_tag ≠ none) ↔
        c.status = MCPServerStatus.ready)) :
    (∃ s', (Generator.genCommitOr cs (some s) x trace).1 = some s' ∧
       ((s'.docker_image_name ≠ none ∧ s'.docker_image_tag ≠ none) ↔
         s'.status = MCPServerStatus.ready)) ∧
    (∀ c ∈ (Generator.genCommitOr cs (some s) x trace).2,
       ((c.docker_image_name ≠ none ∧ c.docker_image_tag ≠ none) ↔
         c.status = MCPServerStatus.ready)) := by
  cases hc : cs.headD none with
  | none =>
    simp only [Generator.genCommitOr, hc]
    refine ⟨⟨x, rfl, hx⟩, ?_⟩
    intro c hcm
    rcases List.mem_append.1 hcm with h | h
    · exact htr c h
    · rw [List.mem_singleton.1 h]; exact hx
  | some m =>
    simp only [Generator.genCommitOr, hc]
    exact genHandleError_inv (cs.drop 1) m s trace hn ht hs htr

/-- C8: starting from a server whose image fields are unset and whose
status has not reached READY, every committed snapshot of a Generate run
— and the final committed record — has `docker_image_name` and
`docker_image_tag` both set exactly when its status is READY: the image
fields are written in the same commit that sets READY, and every failure
commit (step failure → ERROR with the captured log, caught exception →
FAILED) leaves them unset. -/
theorem C8_generator_images_iff_ready (genR : GenStep) (build : BuildOutcome)
    (cs : List (Option String)) (s0 : MCPServer)
    (h1 : s0.docker_image_name = none) (h2 : s0.docker_image_tag = none)
    (h3 : s0.status ≠ MCPServerStatus.ready) :
    (∃ s', (Generator.generate_mcp_server genR build cs (some s0)).1 = some s' ∧
       ((s'.docker_image_name ≠ none ∧ s'.docker_image_tag ≠ none) ↔
         s'.status = MCPServerStatus.ready)) ∧
    (∀ c ∈ (Generator.generate_mcp_server genR build cs (some s0)).2,
       ((c.docker_image_name ≠ none ∧ c.docker_image_tag ≠ none) ↔
         c.status = MCPServerStatus.ready)) := by
  cases hc0 : cs.headD none with
  | some m =>
    simp only [Generator.generate_mcp_server, hc0]
    exact genHandleError_inv (cs.drop 1) m s0 [] h1 h2 h3 (fun c hcm => by cases hcm)
  | none =>
    simp only [Generator.generate_mcp_server, hc0]
    cases genR with
    | fail e logs =>
      refine genCommitOr_inv (cs.drop 1) _ _ _ h1 h2
        (show MCPServerStatus.generating ≠ MCPServerStatus.ready by decide) ?_ ?_
      · simp [h1, h2]
      · intro c hcm
        rw [List.mem_singleton.1 hcm]
        simp [h1, h2]
    | ok outdir logs =>
      cases hc1 : (cs.drop 1).headD none with
      | some m =>
        refine genHandleError_inv ((cs.drop 1).drop 1) m _ _ h1 h2
          (show MCPServerStatus.generating ≠ MCPServerStatus.ready by decide) ?_
        intro c hcm
        rw [List.mem_singleton.1 hcm]
        simp [h1, h2]
      | none =>
        cases hsb : build.success with
        | false =>
          refine genCommitOr_inv ((cs.drop 1).drop 1) _ _ _ h1 h2
            (show MCPServerStatus.building ≠ MCPServerStatus.ready by decide) ?_ ?_
          · simp [h1, h2]
          · intro c hcm
            rcases List.mem_cons.1 hcm with h | h
            · subst h; simp [h1, h2]
            · rw [List.mem_singleton.1 h]; simp [h1, h2]
        | true =>
          refine genCommitOr_inv ((cs.drop 1).drop 1) _ _ _ h1 h2
            (show MCPServerStatus.building ≠ MCPServerStatus.ready by decide) ?_ ?_
          · simp
          · intro c hcm
            rcases List.mem_cons.1 hcm with h | h
            · subst h; simp [h1, h2]
            · rw [List.mem_singleton.1 h]; simp [h1, h2]

/-- C8 witness: a fresh PENDING server generated and built successfully
ends READY with both image fields set. -/
theorem C8_generator_images_iff_ready_witness :
    mcpFresh.docker_image_name = none ∧ mcpFresh.docker_image_tag = none ∧
    mcpFresh.status ≠ MCPServerStatus.ready ∧
    (∃ s', (Generator.generate_mcp_server (GenStep.ok "/gen/out" "generated")
        buildDemo [] (some mcpFresh)).1 = some s' ∧
       ((s'.docker_image_name ≠ none ∧ s'.docker_image_tag ≠ none) ↔
         s'.status = MCPServerStatus.ready)) :=
  ⟨rfl, rfl, by decide,
   (C8_generator_images_iff_ready (GenStep.ok "/gen/out" "generated") buildDemo []
     mcpFresh rfl rfl (by decide)).1⟩
